import Mathlib

/-!
Verification of the lifecycle state machine of the helper daemon library
(src/helper/controller.py and src/helper/config.py), as a shallow embedding.

States are the small-integer codes of Controller (controller.py lines 38 to 72);
the runtime attribute Controller._state starts out as Python None and is modelled
as an Option Nat.
-/

/-- STATE_INITIALIZING (controller.py line 38). -/
def STATE_INITIALIZING : Nat := 1

/-- STATE_SLEEPING (controller.py line 42). -/
def STATE_SLEEPING : Nat := 2

/-- STATE_IDLE (controller.py line 47). -/
def STATE_IDLE : Nat := 3

/-- STATE_ACTIVE (controller.py line 51). -/
def STATE_ACTIVE : Nat := 4

/-- STATE_STOP_REQUESTED (controller.py line 56). -/
def STATE_STOP_REQUESTED : Nat := 5

/-- STATE_STOPPING (controller.py line 60). -/
def STATE_STOPPING : Nat := 6

/-- STATE_STOPPED (controller.py line 63). -/
def STATE_STOPPED : Nat := 7

/-- The keys of Controller._STATES (controller.py lines 66 to 72): the seven
recognized state values. -/
def STATES : List Nat := [1, 2, 3, 4, 5, 6, 7]

/-- Controller.is_running (controller.py lines 145 to 156): state is active,
idle or initializing. -/
def is_running (s : Option Nat) : Bool :=
  s == some STATE_ACTIVE || s == some STATE_IDLE || s == some STATE_INITIALIZING

/-- Controller.is_sleeping (controller.py lines 158 to 166). -/
def is_sleeping (s : Option Nat) : Bool :=
  s == some STATE_SLEEPING

/-- Controller.is_stopped (controller.py lines 168 to 176). -/
def is_stopped (s : Option Nat) : Bool :=
  s == some STATE_STOPPED

/-- Controller.is_stopping (controller.py lines 178 to 186). -/
def is_stopping (s : Option Nat) : Bool :=
  s == some STATE_STOPPING

/-- Controller.is_waiting_to_stop (controller.py lines 188 to 196). -/
def is_waiting_to_stop (s : Option Nat) : Bool :=
  s == some STATE_STOP_REQUESTED

/-- Controller.is_idle (controller.py lines 125 to 133). -/
def is_idle (s : Option Nat) : Bool :=
  s == some STATE_IDLE

/-- Controller.set_state (controller.py lines 268 to 329), as a function from
the current value of Controller._state and the requested state to the new value
of Controller._state, or to the ValueError the method raises for an
unrecognized state value. The guard clauses mirror the source line by line:
same-state request is a no-op, an unrecognized value raises, and each of the
guarded current states (stop requested, stopping, running, sleeping) silently
keeps the current state when the requested state is not in its allow list.
The source has no guard clause for the stopped state. -/
def set_state (cur : Option Nat) (state : Nat) : Except String (Option Nat) :=
  if some state == cur then
    Except.ok cur
  else if !(STATES.contains state) then
    Except.error "Invalid Runtime State"
  else if is_waiting_to_stop cur &&
      !([STATE_STOPPING, STATE_STOPPED].contains state) then
    Except.ok cur
  else if is_stopping cur && !(state == STATE_STOPPED) then
    Except.ok cur
  else if is_running cur &&
      !([STATE_ACTIVE, STATE_IDLE, STATE_SLEEPING, STATE_STOP_REQUESTED,
         STATE_STOPPING].contains state) then
    Except.ok cur
  else if is_sleeping cur &&
      !([STATE_ACTIVE, STATE_IDLE, STATE_STOP_REQUESTED,
         STATE_STOPPING].contains state) then
    Except.ok cur
  else
    Except.ok (some state)

/-- The transition table of spec section 3, written from the spec text
(refinement comparator for the transition-table claim, not from the source). -/
def spec_allowed (f t : Nat) : Bool :=
  (f == 1 && [4, 3, 2, 5, 6].contains t) ||
  (f == 2 && [4, 3, 5, 6].contains t) ||
  (f == 3 && [4, 2, 5, 6].contains t) ||
  (f == 4 && [3, 2, 5, 6].contains t) ||
  (f == 5 && [6, 7].contains t) ||
  (f == 6 && t == 7)

/-- C1 counterexample: the pair (Stopped, Active) is not in the table of spec
section 3 (Stopped is terminal there), yet set_state moves the state from
Stopped to Active instead of leaving it unchanged: the source has no guard
clause for the stopped state. -/
theorem c1_counterexample :
    spec_allowed STATE_STOPPED STATE_ACTIVE = false ∧
    set_state (some STATE_STOPPED) STATE_ACTIVE =
      Except.ok (some STATE_ACTIVE) := by
  constructor
  · rfl
  · rfl

/-- C1 amended: for every pair of distinct recognized states (from, to) not in
the table of spec section 3 and with from not Stopped, set_state leaves the
state unchanged and does not raise; from Stopped, set_state accepts any other
recognized state and changes the state; an unrecognized requested value raises
the ValueError. -/
theorem c1_transition_table :
    (∀ f t : Nat, f ∈ STATES → t ∈ STATES → f ≠ STATE_STOPPED → f ≠ t →
      spec_allowed f t = false → set_state (some f) t = Except.ok (some f)) ∧
    (∀ t : Nat, t ∈ STATES → t ≠ STATE_STOPPED →
      set_state (some STATE_STOPPED) t = Except.ok (some t)) ∧
    (∀ f v : Nat, f ∈ STATES → v ∉ STATES →
      set_state (some f) v = Except.error "Invalid Runtime State") := by
  refine ⟨?_, ?_, ?_⟩
  · intro f t hf ht h7 hne hsp
    fin_cases hf <;> fin_cases ht <;>
      first
        | rfl
        | exact absurd hsp (by decide)
        | exact absurd rfl h7
  · intro t ht h7
    fin_cases ht <;> rfl
  · intro f v hf hv
    simp only [STATES, List.mem_cons, List.not_mem_nil, or_false, not_or] at hv
    obtain ⟨h1, h2, h3, h4, h5, h6, h7⟩ := hv
    fin_cases hf <;>
      simp [set_state, STATES, is_waiting_to_stop, is_stopping, is_running,
            is_sleeping, STATE_INITIALIZING, STATE_SLEEPING, STATE_IDLE,
            STATE_ACTIVE, STATE_STOP_REQUESTED, STATE_STOPPING, STATE_STOPPED,
            h1, h2, h3, h4, h5, h6, h7]

/-- C1 witness: the amended transition-table theorem at concrete inputs:
Sleeping to Stopped is not in the table and is silently rejected, from Stopped
the recognized value Active is accepted, and the unrecognized value 9 raises. -/
theorem c1_witness :
    set_state (some STATE_SLEEPING) STATE_STOPPED =
      Except.ok (some STATE_SLEEPING) ∧
    set_state (some STATE_STOPPED) STATE_ACTIVE =
      Except.ok (some STATE_ACTIVE) ∧
    set_state (some STATE_SLEEPING) 9 =
      Except.error "Invalid Runtime State" :=
  ⟨c1_transition_table.1 STATE_SLEEPING STATE_STOPPED (by decide) (by decide)
      (by decide) (by decide) (by decide),
   c1_transition_table.2.1 STATE_ACTIVE (by decide) (by decide),
   c1_transition_table.2.2 STATE_SLEEPING 9 (by decide) (by decide)⟩

/-!
Controller runtime, instrumented for observation: besides the _state attribute
it records the two interval timers the source touches (setitimer with
ITIMER_REAL in Controller._sleep, setitimer with ITIMER_PROF in
Controller.stop; value 0 means the timer is cleared), and counters for the
cleanup() and process() hook invocations and for arrivals at the Stopped state.
-/

structure Ctrl where
  state : Option Nat
  itimerReal : Int
  itimerProf : Int
  cleanupCalls : Nat
  processCalls : Nat
  stoppedEntries : Nat
deriving DecidableEq, Repr

/-- Controller.set_state lifted to the instrumented record. The lifecycle
methods below only ever pass the recognized constants 2, 4, 5, 6 and 7, for
which set_state never returns an error (lemma set_state_ok_of_mem); the error
branch, unreachable on those inputs, keeps the record unchanged. Arrivals at
Stopped (a transition whose result is Stopped from a different state) are
counted. -/
def set_state_c (c : Ctrl) (s : Nat) : Ctrl :=
  match set_state c.state s with
  | Except.ok s2 =>
      { c with
          state := s2,
          stoppedEntries := c.stoppedEntries +
            (if s2 == some STATE_STOPPED && !(c.state == some STATE_STOPPED)
             then 1 else 0) }
  | Except.error _ => c

/-- For any recognized requested state, set_state never raises. -/
theorem set_state_ok_of_mem (cur : Option Nat) (s : Nat) (hs : s ∈ STATES) :
    ∃ v, set_state cur s = Except.ok v := by
  fin_cases hs <;>
    (unfold set_state; repeat' split) <;>
      first
        | exact ⟨_, rfl⟩
        | simp_all [STATES]

/-- The condition of the drain loop in Controller.stop (controller.py line
358): while self.is_running and self.is_waiting_to_stop. -/
def drain_cond (s : Option Nat) : Bool :=
  is_running s && is_waiting_to_stop s

/-- The drain loop condition is unsatisfiable: a single state value cannot be
both one of active, idle, initializing and equal to stop requested. -/
theorem drain_cond_eq_false (s : Option Nat) : drain_cond s = false := by
  cases s with
  | none => rfl
  | some n =>
    by_cases h : n = 5
    · subst h; rfl
    · simp [drain_cond, is_waiting_to_stop, STATE_STOP_REQUESTED, h]

/-- Result of Controller.stop: the controller after the call, and whether an
exception escaped the call (the source wraps none of the hook calls in a
try block). -/
structure StopRes where
  ctrl : Ctrl
  raised : Bool
deriving DecidableEq, Repr

/-- Controller.stop (controller.py lines 346 to 370). Steps in source order:
set_state(STATE_STOP_REQUESTED); setitimer(ITIMER_PROF, 0, 0); the shutdown()
hook (a no-op by default); the drain loop, whose body (a log line and
time.sleep) changes nothing the condition tests, so it runs zero iterations
when the condition is false at entry and never exits otherwise (the none
result models that divergence); then set_state(STATE_STOPPING) unless already
stopping; cleanup(); and _stopped(), which is set_state(STATE_STOPPED).
cleanup_raises models the cleanup() hook raising: the source does not catch
it, so the call ends with raised true and _stopped never runs. -/
def stop (c : Ctrl) (cleanup_raises : Bool) : Option StopRes :=
  let c1 := set_state_c c STATE_STOP_REQUESTED
  let c2 := { c1 with itimerProf := 0 }
  if drain_cond c2.state then
    none
  else
    let c3 := if is_stopping c2.state then c2 else set_state_c c2 STATE_STOPPING
    let c4 := { c3 with cleanupCalls := c3.cleanupCalls + 1 }
    if cleanup_raises then
      some { ctrl := c4, raised := true }
    else
      some { ctrl := set_state_c c4 STATE_STOPPED, raised := false }

/-- Controller._sleep (controller.py lines 394 to 405): unless the state is
stopping, arm the ITIMER_REAL timer with the wake interval and set the state
to sleeping. -/
def sleep_ (c : Ctrl) (wake : Int) : Ctrl :=
  if is_stopping c.state then c
  else set_state_c { c with itimerReal := wake } STATE_SLEEPING

/-- Controller._wake (controller.py lines 412 to 438): if the state is none of
stopping, stopped, idle, set the state to active, invoke process() (the
application hook, modelled as a counter; the base class requires overriding
it), then either move to stopping if a stop was requested during process() or
re-enter sleep. Otherwise do nothing. -/
def wake_ (c : Ctrl) (wake_i : Int) : Ctrl :=
  if !(is_stopping c.state || is_stopped c.state || is_idle c.state) then
    let c1 := set_state_c c STATE_ACTIVE
    let c2 := { c1 with processCalls := c1.processCalls + 1 }
    if is_waiting_to_stop c2.state then set_state_c c2 STATE_STOPPING
    else sleep_ c2 wake_i
  else c

/-- C2 (code bug): the drain condition of Controller.stop, while is_running
and is_waiting_to_stop, is unsatisfiable because a single state value cannot
be both; consequently, when Stop is requested while the state is Active (a
process() call in flight), stop never sleeps and runs straight through to
Stopped within the signal handler, before the in-flight process() call has
returned. The spec (and the source comment above the loop, Wait for the
current run to finish) requires blocking until the call returns. -/
theorem c2_stop_never_drains :
    (∀ s : Option Nat, drain_cond s = false) ∧
    (∀ c : Ctrl, c.state = some STATE_ACTIVE →
      stop c false =
        some { ctrl := { state := some STATE_STOPPED,
                         itimerReal := c.itimerReal, itimerProf := 0,
                         cleanupCalls := c.cleanupCalls + 1,
                         processCalls := c.processCalls,
                         stoppedEntries := c.stoppedEntries + 1 },
               raised := false }) := by
  refine ⟨drain_cond_eq_false, ?_⟩
  intro c hc
  obtain ⟨s, tr, tp, cc, pc, se⟩ := c
  replace hc : s = some STATE_ACTIVE := hc
  subst hc
  rfl

/-- C2 witness: the drain condition is false in the Active state and the stop
call from a concrete Active controller ends Stopped without ever sleeping. -/
theorem c2_witness :
    stop { state := some STATE_ACTIVE, itimerReal := 60, itimerProf := 0,
           cleanupCalls := 0, processCalls := 1, stoppedEntries := 0 } false =
      some { ctrl := { state := some STATE_STOPPED, itimerReal := 60,
                       itimerProf := 0, cleanupCalls := 1, processCalls := 1,
                       stoppedEntries := 1 }, raised := false } :=
  c2_stop_never_drains.2
    { state := some STATE_ACTIVE, itimerReal := 60, itimerProf := 0,
      cleanupCalls := 0, processCalls := 1, stoppedEntries := 0 } rfl

/-- C3 counterexample: two stop calls in succession on a sleeping controller
execute cleanup() twice and arrive at Stopped twice, not once: the second call
re-enters the whole shutdown path because set_state accepts the transition out
of Stopped back to StopRequested. -/
theorem c3_counterexample :
    stop { state := some STATE_SLEEPING, itimerReal := 60, itimerProf := 0,
           cleanupCalls := 0, processCalls := 0, stoppedEntries := 0 } false =
      some { ctrl := { state := some STATE_STOPPED, itimerReal := 60,
                       itimerProf := 0, cleanupCalls := 1, processCalls := 0,
                       stoppedEntries := 1 }, raised := false } ∧
    stop { state := some STATE_STOPPED, itimerReal := 60, itimerProf := 0,
           cleanupCalls := 1, processCalls := 0, stoppedEntries := 1 } false =
      some { ctrl := { state := some STATE_STOPPED, itimerReal := 60,
                       itimerProf := 0, cleanupCalls := 2, processCalls := 0,
                       stoppedEntries := 2 }, raised := false } := by
  exact ⟨rfl, rfl⟩

/-- C3 amended: from any running or sleeping state, invoking stop twice in
succession results in exactly two executions of cleanup() and two arrivals at
the Stopped state, one per call: stop is not idempotent, because set_state has
no guard for the Stopped state and lets the second call leave it again. -/
theorem c3_double_stop :
    ∀ c : Ctrl,
      (c.state = some STATE_INITIALIZING ∨ c.state = some STATE_SLEEPING ∨
       c.state = some STATE_IDLE ∨ c.state = some STATE_ACTIVE) →
      ((stop c false).bind fun r => stop r.ctrl false) =
        some { ctrl := { state := some STATE_STOPPED,
                         itimerReal := c.itimerReal, itimerProf := 0,
                         cleanupCalls := c.cleanupCalls + 2,
                         processCalls := c.processCalls,
                         stoppedEntries := c.stoppedEntries + 2 },
               raised := false } := by
  intro c hc
  obtain ⟨s, tr, tp, cc, pc, se⟩ := c
  rcases hc with h | h | h | h
  · replace h : s = some STATE_INITIALIZING := h
    subst h
    have h1 : stop { state := some STATE_INITIALIZING, itimerReal := tr,
                     itimerProf := tp, cleanupCalls := cc, processCalls := pc,
                     stoppedEntries := se } false =
        some { ctrl := { state := some STATE_STOPPED, itimerReal := tr,
                         itimerProf := 0, cleanupCalls := cc + 1,
                         processCalls := pc, stoppedEntries := se + 1 },
               raised := false } := rfl
    rw [h1]
    rfl
  · replace h : s = some STATE_SLEEPING := h
    subst h
    have h1 : stop { state := some STATE_SLEEPING, itimerReal := tr,
                     itimerProf := tp, cleanupCalls := cc, processCalls := pc,
                     stoppedEntries := se } false =
        some { ctrl := { state := some STATE_STOPPED, itimerReal := tr,
                         itimerProf := 0, cleanupCalls := cc + 1,
                         processCalls := pc, stoppedEntries := se + 1 },
               raised := false } := rfl
    rw [h1]
    rfl
  · replace h : s = some STATE_IDLE := h
    subst h
    have h1 : stop { state := some STATE_IDLE, itimerReal := tr,
                     itimerProf := tp, cleanupCalls := cc, processCalls := pc,
                     stoppedEntries := se } false =
        some { ctrl := { state := some STATE_STOPPED, itimerReal := tr,
                         itimerProf := 0, cleanupCalls := cc + 1,
                         processCalls := pc, stoppedEntries := se + 1 },
               raised := false } := rfl
    rw [h1]
    rfl
  · replace h : s = some STATE_ACTIVE := h
    subst h
    have h1 : stop { state := some STATE_ACTIVE, itimerReal := tr,
                     itimerProf := tp, cleanupCalls := cc, processCalls := pc,
                     stoppedEntries := se } false =
        some { ctrl := { state := some STATE_STOPPED, itimerReal := tr,
                         itimerProf := 0, cleanupCalls := cc + 1,
                         processCalls := pc, stoppedEntries := se + 1 },
               raised := false } := rfl
    rw [h1]
    rfl

/-- C3 witness: the double-stop theorem at a concrete sleeping controller. -/
theorem c3_witness :
    ((stop { state := some STATE_SLEEPING, itimerReal := 60, itimerProf := 0,
             cleanupCalls := 0, processCalls := 0, stoppedEntries := 0 }
        false).bind fun r => stop r.ctrl false) =
      some { ctrl := { state := some STATE_STOPPED, itimerReal := 60,
                       itimerProf := 0, cleanupCalls := 2, processCalls := 0,
                       stoppedEntries := 2 }, raised := false } :=
  c3_double_stop
    { state := some STATE_SLEEPING, itimerReal := 60, itimerProf := 0,
      cleanupCalls := 0, processCalls := 0, stoppedEntries := 0 }
    (Or.inr (Or.inl rfl))

/-- C6 (code bug): stop zeroes the ITIMER_PROF timer, but the wake timer armed
by Controller._sleep is the ITIMER_REAL timer; after the full stop sequence
the real timer still holds its armed value w, so the pending wake has not been
cancelled. Moreover, if the alarm fires while the state is StopRequested, the
wake handler still invokes process(): its guard only excludes the stopping,
stopped and idle states. -/
theorem c6_stop_keeps_wake_timer :
    (∀ (c : Ctrl) (w : Int), c.state = some STATE_INITIALIZING →
      (sleep_ c w).itimerReal = w ∧
      (sleep_ c w).state = some STATE_SLEEPING ∧
      stop (sleep_ c w) false =
        some { ctrl := { state := some STATE_STOPPED, itimerReal := w,
                         itimerProf := 0, cleanupCalls := c.cleanupCalls + 1,
                         processCalls := c.processCalls,
                         stoppedEntries := c.stoppedEntries + 1 },
               raised := false }) ∧
    (∀ (c : Ctrl) (w : Int), c.state = some STATE_STOP_REQUESTED →
      (wake_ c w).processCalls = c.processCalls + 1) := by
  constructor
  · intro c w hc
    obtain ⟨s, tr, tp, cc, pc, se⟩ := c
    replace hc : s = some STATE_INITIALIZING := hc
    subst hc
    exact ⟨rfl, rfl, rfl⟩
  · intro c w hc
    obtain ⟨s, tr, tp, cc, pc, se⟩ := c
    replace hc : s = some STATE_STOP_REQUESTED := hc
    subst hc
    rfl

/-- C6 witness: arming the wake timer at 60 and then stopping leaves the
ITIMER_REAL timer at 60, and a wake in the StopRequested state still runs
process(). -/
theorem c6_witness :
    ((sleep_ { state := some STATE_INITIALIZING, itimerReal := 0,
               itimerProf := 0, cleanupCalls := 0, processCalls := 0,
               stoppedEntries := 0 } 60).itimerReal = 60 ∧
     (sleep_ { state := some STATE_INITIALIZING, itimerReal := 0,
               itimerProf := 0, cleanupCalls := 0, processCalls := 0,
               stoppedEntries := 0 } 60).state = some STATE_SLEEPING ∧
     stop (sleep_ { state := some STATE_INITIALIZING, itimerReal := 0,
                    itimerProf := 0, cleanupCalls := 0, processCalls := 0,
                    stoppedEntries := 0 } 60) false =
       some { ctrl := { state := some STATE_STOPPED, itimerReal := 60,
                        itimerProf := 0, cleanupCalls := 1, processCalls := 0,
                        stoppedEntries := 1 }, raised := false }) ∧
    (wake_ { state := some STATE_STOP_REQUESTED, itimerReal := 60,
             itimerProf := 0, cleanupCalls := 0, processCalls := 3,
             stoppedEntries := 0 } 60).processCalls = 4 :=
  ⟨c6_stop_keeps_wake_timer.1
      { state := some STATE_INITIALIZING, itimerReal := 0, itimerProf := 0,
        cleanupCalls := 0, processCalls := 0, stoppedEntries := 0 } 60 rfl,
   c6_stop_keeps_wake_timer.2
      { state := some STATE_STOP_REQUESTED, itimerReal := 60, itimerProf := 0,
        cleanupCalls := 0, processCalls := 3, stoppedEntries := 0 } 60 rfl⟩

/-- C7 counterexample: when the cleanup() hook raises during the shutdown of a
sleeping controller, the exception escapes stop (raised is true: the source
wraps the hook in no try block) and the state stays at Stopping, never
reaching Stopped. -/
theorem c7_counterexample :
    stop { state := some STATE_SLEEPING, itimerReal := 60, itimerProf := 0,
           cleanupCalls := 0, processCalls := 0, stoppedEntries := 0 } true =
      some { ctrl := { state := some STATE_STOPPING, itimerReal := 60,
                       itimerProf := 0, cleanupCalls := 1, processCalls := 0,
                       stoppedEntries := 0 }, raised := true } := by
  rfl

/-- C7 amended: exceptions raised inside the hooks are not caught at the call
site; in particular an exception raised by cleanup() during shutdown
propagates out of stop and prevents the state from reaching Stopped: the call
ends with the exception escaping, the state left at Stopping, and no arrival
at Stopped recorded. -/
theorem c7_cleanup_error_escapes :
    ∀ c : Ctrl, c.state = some STATE_SLEEPING →
      stop c true =
        some { ctrl := { state := some STATE_STOPPING,
                         itimerReal := c.itimerReal, itimerProf := 0,
                         cleanupCalls := c.cleanupCalls + 1,
                         processCalls := c.processCalls,
                         stoppedEntries := c.stoppedEntries },
               raised := true } := by
  intro c hc
  obtain ⟨s, tr, tp, cc, pc, se⟩ := c
  replace hc : s = some STATE_SLEEPING := hc
  subst hc
  rfl

/-- C7 witness: the escape theorem at a concrete sleeping controller. -/
theorem c7_witness :
    stop { state := some STATE_SLEEPING, itimerReal := 5, itimerProf := 0,
           cleanupCalls := 0, processCalls := 2, stoppedEntries := 0 } true =
      some { ctrl := { state := some STATE_STOPPING, itimerReal := 5,
                       itimerProf := 0, cleanupCalls := 1, processCalls := 2,
                       stoppedEntries := 0 }, raised := true } :=
  c7_cleanup_error_escapes
    { state := some STATE_SLEEPING, itimerReal := 5, itimerProf := 0,
      cleanupCalls := 0, processCalls := 2, stoppedEntries := 0 } rfl

/-!
Configuration model (src/helper/config.py). The claims only read the
wake_interval key of the Application section, so the Application section is
modelled by that key and the rest of the file content by an opaque-to-us
numeric field named other. A wake_interval value of Python None behaves, for
the read in Controller.wake_interval, like an absent key (both are falsy), so
only presence of an integer value is modelled.
-/

/-- The Application section of a loaded configuration file: the wake_interval
key when present. -/
structure AppData where
  wake_interval : Option Int
deriving DecidableEq, Repr

/-- The content of a configuration file (Config._values): the Application
section when present, and everything else. -/
structure Vals where
  application : Option AppData
  other : Nat
deriving DecidableEq, Repr

/-- Config.APPLICATION (config.py line 28): the default application settings,
wake_interval 60. -/
def APPLICATION : AppData := { wake_interval := some 60 }

/-- The Config object: the path passed to the constructor, the application
Data object built by the constructor, and the current _values. -/
structure Config where
  file_path : Option String
  application : AppData
  values : Vals
deriving DecidableEq, Repr

/-- Config._assign_values (config.py lines 72 to 81) restricted to the
Application section: copy each key of the loaded section over the defaults;
a missing section or missing key leaves the default in place. -/
def assign_values (obj : AppData) (vals : Option AppData) : AppData :=
  match vals with
  | none => obj
  | some v =>
    match v.wake_interval with
    | none => obj
    | some w => { obj with wake_interval := some w }

/-- Config constructor (config.py lines 52 to 70): with no file path,
_values stays empty and application is the default; with a file path, _values
is the loaded file content and application is the defaults overlaid with the
Application section. -/
def config_init (file_path : Option String) (file_values : Vals) : Config :=
  match file_path with
  | none =>
      { file_path := none, application := APPLICATION,
        values := { application := none, other := 0 } }
  | some p =>
      { file_path := some p,
        application := assign_values APPLICATION file_values.application,
        values := file_values }

/-- Config.reload (config.py lines 111 to 130). load_result is the outcome of
_load_config_file, which raises ValueError on any read or parse failure.
Without a file path nothing is attempted. On a load error the method logs one
error and returns False with _values untouched. On success: the Data class
defines neither hash nor equality, so the guard hash(values) != hash(_values)
compares identity hashes of two distinct objects and always passes, _values
is replaced and True is returned. Note that reload touches only _values: the
application attribute built by the constructor is never rebuilt. The result
is (config after the call, returned value, errors logged). -/
def reload (c : Config) (load_result : Except String Vals) : Config × Bool × Nat :=
  match c.file_path with
  | none => (c, false, 0)
  | some _ =>
    match load_result with
    | Except.error _ => (c, false, 1)
    | Except.ok v => ({ c with values := v }, true, 0)

/-- Controller.WAKE_INTERVAL (controller.py line 35). -/
def WAKE_INTERVAL : Int := 60

/-- Controller.wake_interval (controller.py lines 384 to 392): the value of
the wake_interval key of config.application, or WAKE_INTERVAL when that value
is falsy (absent, Python None, or zero). -/
def wake_interval (c : Config) : Int :=
  match c.application.wake_interval with
  | none => WAKE_INTERVAL
  | some v => if v == 0 then WAKE_INTERVAL else v

/-- Result of Controller.on_sighup: the controller, the config, the number of
configuration_reloaded() hook invocations and of errors logged. -/
structure SighupRes where
  ctrl : Ctrl
  config : Config
  reloaded_hook : Nat
  errors : Nat
deriving DecidableEq, Repr

/-- Controller.on_sighup (controller.py lines 198 to 212): runs Config.reload
directly in the signal handler; when it returns True, the logging
configuration is updated and the configuration_reloaded() hook is invoked.
The trailing signal.pause() when sleeping blocks without changing any state
and is not modelled. The lifecycle state is never touched. -/
def on_sighup (ctrl : Ctrl) (cfg : Config) (load_result : Except String Vals) :
    SighupRes :=
  let r := reload cfg load_result
  { ctrl := ctrl, config := r.1,
    reloaded_hook := if r.2.1 then 1 else 0,
    errors := r.2.2 }

/-- Controller.on_sigterm (controller.py lines 214 to 220): calls self.stop()
in the signal-delivery context. -/
def on_sigterm (c : Ctrl) : Option StopRes :=
  stop c false

/-- Controller.on_sigusr1 (controller.py lines 222 to 227): logs only. -/
def on_sigusr1 (c : Ctrl) : Ctrl := c

/-- Controller.on_sigusr2 (controller.py lines 229 to 234): logs only. -/
def on_sigusr2 (c : Ctrl) : Ctrl := c

/-- C4 (code bug): Config.reload never rebuilds the application attribute
that Controller.wake_interval reads, so after a successful reload whose new
snapshot carries wake_interval 5 the controller still reads 60: subsequent
wake cycles keep occurring every 60 units. The first conjunct is the general
fact, the second evaluates the scenario of spec section 8 (old 60, new 5). -/
theorem c4_reload_does_not_update_wake_interval :
    (∀ (c : Config) (r : Except String Vals),
      ((reload c r).1).application = c.application) ∧
    (reload
        (config_init (some "app.yml")
          { application := some { wake_interval := some 60 }, other := 0 })
        (Except.ok { application := some { wake_interval := some 5 },
                     other := 0 }) =
      ({ file_path := some "app.yml",
         application := { wake_interval := some 60 },
         values := { application := some { wake_interval := some 5 },
                     other := 0 } }, true, 0) ∧
     wake_interval
        (reload
          (config_init (some "app.yml")
            { application := some { wake_interval := some 60 }, other := 0 })
          (Except.ok { application := some { wake_interval := some 5 },
                       other := 0 })).1 = 60) := by
  constructor
  · intro c r
    unfold reload
    cases hp : c.file_path with
    | none => rfl
    | some p =>
      cases r with
      | error e => rfl
      | ok v => rfl
  · exact ⟨rfl, rfl⟩

/-- C5: when the configuration loader fails, reload returns the configuration
unchanged (identical by value, hence same wake interval), signals failure by
returning False, and logs one error; on_sighup then skips the reload branch,
leaves the lifecycle state untouched and does not invoke
configuration_reloaded(). -/
theorem c5_reload_atomic_on_error :
    ∀ (cfg : Config) (ctrl : Ctrl) (p e : String),
      cfg.file_path = some p →
      reload cfg (Except.error e) = (cfg, false, 1) ∧
      wake_interval (reload cfg (Except.error e)).1 = wake_interval cfg ∧
      on_sighup ctrl cfg (Except.error e) =
        { ctrl := ctrl, config := cfg, reloaded_hook := 0, errors := 1 } := by
  intro cfg ctrl p e hp
  obtain ⟨fp, app, vals⟩ := cfg
  replace hp : fp = some p := hp
  subst hp
  exact ⟨rfl, rfl, rfl⟩

/-- C5 witness: a failed reload on a concrete configuration with a file path
keeps the configuration, reports one error and returns False. -/
theorem c5_witness :
    reload { file_path := some "app.yml",
             application := { wake_interval := some 60 },
             values := { application := some { wake_interval := some 60 },
                         other := 3 } }
        (Except.error "Could not read configuration file") =
      ({ file_path := some "app.yml",
         application := { wake_interval := some 60 },
         values := { application := some { wake_interval := some 60 },
                     other := 3 } }, false, 1) ∧
    wake_interval
        (reload { file_path := some "app.yml",
                  application := { wake_interval := some 60 },
                  values := { application := some { wake_interval := some 60 },
                              other := 3 } }
          (Except.error "Could not read configuration file")).1 =
      wake_interval { file_path := some "app.yml",
                      application := { wake_interval := some 60 },
                      values := { application := some { wake_interval := some 60 },
                                  other := 3 } } ∧
    on_sighup { state := some STATE_SLEEPING, itimerReal := 60, itimerProf := 0,
                cleanupCalls := 0, processCalls := 0, stoppedEntries := 0 }
        { file_path := some "app.yml",
          application := { wake_interval := some 60 },
          values := { application := some { wake_interval := some 60 },
                      other := 3 } }
        (Except.error "Could not read configuration file") =
      { ctrl := { state := some STATE_SLEEPING, itimerReal := 60,
                  itimerProf := 0, cleanupCalls := 0, processCalls := 0,
                  stoppedEntries := 0 },
        config := { file_path := some "app.yml",
                    application := { wake_interval := some 60 },
                    values := { application := some { wake_interval := some 60 },
                                other := 3 } },
        reloaded_hook := 0, errors := 1 } :=
  c5_reload_atomic_on_error
    { file_path := some "app.yml",
      application := { wake_interval := some 60 },
      values := { application := some { wake_interval := some 60 },
                  other := 3 } }
    { state := some STATE_SLEEPING, itimerReal := 60, itimerProf := 0,
      cleanupCalls := 0, processCalls := 0, stoppedEntries := 0 }
    "app.yml" "Could not read configuration file" rfl

/-- C8 counterexample: no minimum of 1 is enforced on the wake interval. With
a configured wake_interval of minus 5 the controller arms minus 5, which is
below 1; and a configured value of 0, although present, is discarded for the
default 60 by the Python or-fallback. -/
theorem c8_counterexample :
    wake_interval { file_path := some "app.yml",
                    application := { wake_interval := some (-5) },
                    values := { application := some { wake_interval := some (-5) },
                                other := 0 } } = -5 ∧
    ¬(1 ≤ (-5 : Int)) ∧
    wake_interval { file_path := some "app.yml",
                    application := { wake_interval := some 0 },
                    values := { application := some { wake_interval := some 0 },
                                other := 0 } } = 60 := by
  exact ⟨rfl, by decide, rfl⟩

/-- C8 amended: the interval armed on entry to Sleeping is the configured
application wake_interval when present and nonzero, used as-is with no lower
bound (a negative configured value is armed unchanged), and 60 when the key
is absent or its value is zero (both falsy for the or-fallback). -/
theorem c8_wake_interval_no_minimum :
    ∀ (cfg : Config) (c : Ctrl), c.state = some STATE_INITIALIZING →
      (∀ v : Int, cfg.application.wake_interval = some v → v ≠ 0 →
        (sleep_ c (wake_interval cfg)).itimerReal = v) ∧
      (cfg.application.wake_interval = none →
        (sleep_ c (wake_interval cfg)).itimerReal = 60) ∧
      (cfg.application.wake_interval = some 0 →
        (sleep_ c (wake_interval cfg)).itimerReal = 60) := by
  intro cfg c hc
  obtain ⟨s, tr, tp, cc, pc, se⟩ := c
  replace hc : s = some STATE_INITIALIZING := hc
  subst hc
  have hsl : ∀ w : Int,
      (sleep_ { state := some STATE_INITIALIZING, itimerReal := tr,
                itimerProf := tp, cleanupCalls := cc, processCalls := pc,
                stoppedEntries := se } w).itimerReal = w := fun w => rfl
  refine ⟨?_, ?_, ?_⟩
  · intro v hv hv0
    rw [hsl]
    unfold wake_interval
    rw [hv]
    simp [hv0]
  · intro hv
    rw [hsl]
    unfold wake_interval
    rw [hv]
    rfl
  · intro hv
    rw [hsl]
    unfold wake_interval
    rw [hv]
    rfl

/-- C8 witness: the amended wake-interval theorem at concrete configurations:
a configured minus 5 is armed as minus 5, an absent key arms 60, a configured
0 arms 60. -/
theorem c8_witness :
    ((sleep_ { state := some STATE_INITIALIZING, itimerReal := 0,
               itimerProf := 0, cleanupCalls := 0, processCalls := 0,
               stoppedEntries := 0 }
        (wake_interval { file_path := some "app.yml",
                         application := { wake_interval := some (-5) },
                         values := { application := some { wake_interval := some (-5) },
                                     other := 0 } })).itimerReal = -5) ∧
    ((sleep_ { state := some STATE_INITIALIZING, itimerReal := 0,
               itimerProf := 0, cleanupCalls := 0, processCalls := 0,
               stoppedEntries := 0 }
        (wake_interval { file_path := none,
                         application := { wake_interval := none },
                         values := { application := none,
                                     other := 0 } })).itimerReal = 60) :=
  ⟨(c8_wake_interval_no_minimum
      { file_path := some "app.yml",
        application := { wake_interval := some (-5) },
        values := { application := some { wake_interval := some (-5) },
                    other := 0 } }
      { state := some STATE_INITIALIZING, itimerReal := 0, itimerProf := 0,
        cleanupCalls := 0, processCalls := 0, stoppedEntries := 0 } rfl).1
     (-5) rfl (by decide),
   (c8_wake_interval_no_minimum
      { file_path := none,
        application := { wake_interval := none },
        values := { application := none, other := 0 } }
      { state := some STATE_INITIALIZING, itimerReal := 0, itimerProf := 0,
        cleanupCalls := 0, processCalls := 0, stoppedEntries := 0 } rfl).2.1
     rfl⟩

/-- C9 counterexample: the installed terminate handler (on_sigterm) executes
the whole shutdown sequence in the signal-delivery context: on a sleeping
controller it mutates the lifecycle state through to Stopped and runs
cleanup(); it enqueues nothing (no intent queue exists in the source). -/
theorem c9_counterexample :
    on_sigterm { state := some STATE_SLEEPING, itimerReal := 60,
                 itimerProf := 0, cleanupCalls := 0, processCalls := 0,
                 stoppedEntries := 0 } =
      some { ctrl := { state := some STATE_STOPPED, itimerReal := 60,
                       itimerProf := 0, cleanupCalls := 1, processCalls := 0,
                       stoppedEntries := 1 }, raised := false } := by
  rfl

/-- C9 amended: the installed handlers execute the lifecycle logic directly
in the signal-delivery context rather than enqueueing intents: the terminate
handler runs the full shutdown sequence (state transitions, cleanup, arrival
at Stopped), the reconfigure handler performs the configuration reload and
invokes the configuration_reloaded() hook; no intent queue exists; only the
two user-signal handlers are minimal (logging only, no state change). -/
theorem c9_handlers_run_logic :
    (∀ c : Ctrl, c.state = some STATE_SLEEPING →
      on_sigterm c =
        some { ctrl := { state := some STATE_STOPPED,
                         itimerReal := c.itimerReal, itimerProf := 0,
                         cleanupCalls := c.cleanupCalls + 1,
                         processCalls := c.processCalls,
                         stoppedEntries := c.stoppedEntries + 1 },
               raised := false }) ∧
    (∀ (ctrl : Ctrl) (cfg : Config) (v : Vals) (p : String),
      cfg.file_path = some p →
      (on_sighup ctrl cfg (Except.ok v)).config.values = v ∧
      (on_sighup ctrl cfg (Except.ok v)).reloaded_hook = 1) ∧
    (∀ c : Ctrl, on_sigusr1 c = c ∧ on_sigusr2 c = c) := by
  refine ⟨?_, ?_, ?_⟩
  · intro c hc
    obtain ⟨s, tr, tp, cc, pc, se⟩ := c
    replace hc : s = some STATE_SLEEPING := hc
    subst hc
    rfl
  · intro ctrl cfg v p hp
    obtain ⟨fp, app, vals⟩ := cfg
    replace hp : fp = some p := hp
    subst hp
    exact ⟨rfl, rfl⟩
  · intro c
    exact ⟨rfl, rfl⟩

/-- C9 witness: the amended handler theorem at concrete inputs. -/
theorem c9_witness :
    on_sigterm { state := some STATE_SLEEPING, itimerReal := 5,
                 itimerProf := 0, cleanupCalls := 0, processCalls := 4,
                 stoppedEntries := 0 } =
      some { ctrl := { state := some STATE_STOPPED, itimerReal := 5,
                       itimerProf := 0, cleanupCalls := 1, processCalls := 4,
                       stoppedEntries := 1 }, raised := false } ∧
    (on_sighup { state := some STATE_SLEEPING, itimerReal := 5,
                 itimerProf := 0, cleanupCalls := 0, processCalls := 4,
                 stoppedEntries := 0 }
        { file_path := some "app.yml",
          application := { wake_interval := some 60 },
          values := { application := some { wake_interval := some 60 },
                      other := 0 } }
        (Except.ok { application := some { wake_interval := some 5 },
                     other := 1 })).config.values =
      { application := some { wake_interval := some 5 }, other := 1 } :=
  ⟨c9_handlers_run_logic.1
      { state := some STATE_SLEEPING, itimerReal := 5, itimerProf := 0,
        cleanupCalls := 0, processCalls := 4, stoppedEntries := 0 } rfl,
   (c9_handlers_run_logic.2.1
      { state := some STATE_SLEEPING, itimerReal := 5, itimerProf := 0,
        cleanupCalls := 0, processCalls := 4, stoppedEntries := 0 }
      { file_path := some "app.yml",
        application := { wake_interval := some 60 },
        values := { application := some { wake_interval := some 60 },
                    other := 0 } }
      { application := some { wake_interval := some 5 }, other := 1 }
      "app.yml" rfl).1⟩

/-- C10: a wake alarm that fires while the state is Idle, Stopping or Stopped
is inert: the handler returns the controller unchanged, so no transition to
Active, no process() invocation, no new timer; and iterating any number of
further wakes from that point changes nothing, so no further periodic cycles
occur without some other event. -/
theorem c10_wake_inert_when_idle :
    ∀ (c : Ctrl) (w : Int),
      (c.state = some STATE_IDLE ∨ c.state = some STATE_STOPPING ∨
       c.state = some STATE_STOPPED) →
      wake_ c w = c ∧ ∀ n : Nat, (fun x => wake_ x w)^[n] c = c := by
  intro c w hc
  have h1 : wake_ c w = c := by
    obtain ⟨s, tr, tp, cc, pc, se⟩ := c
    rcases hc with h | h | h
    · replace h : s = some STATE_IDLE := h
      subst h; rfl
    · replace h : s = some STATE_STOPPING := h
      subst h; rfl
    · replace h : s = some STATE_STOPPED := h
      subst h; rfl
  refine ⟨h1, ?_⟩
  intro n
  induction n with
  | zero => rfl
  | succ k ih =>
    rw [Function.iterate_succ_apply]
    show (fun x => wake_ x w)^[k] (wake_ c w) = c
    rw [h1]
    exact ih

/-- C10 witness: a wake in the Idle state leaves a concrete controller
unchanged, once and under three repetitions. -/
theorem c10_witness :
    wake_ { state := some STATE_IDLE, itimerReal := 0, itimerProf := 0,
            cleanupCalls := 0, processCalls := 2, stoppedEntries := 0 } 60 =
      { state := some STATE_IDLE, itimerReal := 0, itimerProf := 0,
        cleanupCalls := 0, processCalls := 2, stoppedEntries := 0 } ∧
    (fun x => wake_ x 60)^[3]
        { state := some STATE_IDLE, itimerReal := 0, itimerProf := 0,
          cleanupCalls := 0, processCalls := 2, stoppedEntries := 0 } =
      { state := some STATE_IDLE, itimerReal := 0, itimerProf := 0,
        cleanupCalls := 0, processCalls := 2, stoppedEntries := 0 } :=
  ⟨(c10_wake_inert_when_idle
      { state := some STATE_IDLE, itimerReal := 0, itimerProf := 0,
        cleanupCalls := 0, processCalls := 2, stoppedEntries := 0 } 60
      (Or.inl rfl)).1,
   (c10_wake_inert_when_idle
      { state := some STATE_IDLE, itimerReal := 0, itimerProf := 0,
        cleanupCalls := 0, processCalls := 2, stoppedEntries := 0 } 60
      (Or.inl rfl)).2 3⟩
